import Mathlib

/-!
Verification development for the `espn-sportstracker` service (`src/app/main.py`).

The source is a small FastAPI application: a static YAML config (leagues and
teams), an in-memory cache `cache : dict` mapping `"{league_slug}:{team_slug}"`
to `(timestamp, data)` with a 3600-second expiry, an upstream fetch
`fetch_team_data`, and four endpoints (`api_team`, `api_team_no_league`,
`api_fixtures`, `get_all_teams`).

Shallow embedding conventions:
- JSON payloads are the inductive `Json`.
- The upstream HTTP layer is an oracle `Upstream : String → Except String Json`
  keyed by the request URL; `Except.error e` models `requests.RequestException`
  with message `e` and also covers `raise_for_status` on a non-2xx response.
- Python `Optional` config fields are `Option _`; Python truthiness of such a
  field (`if not x`) is `strTruthy` / `intTruthy`.
- `raise HTTPException(status, detail)` is `Except.error (PyError.http status detail)`;
  an uncaught `AttributeError` (calling `.get` on a non-dict) is
  `Except.error PyError.attributeError`.
- Mutation of the module-level `cache` dict is explicit state passing: each
  operation returns the resulting cache. `time.time()` is a parameter `now : Int`,
  held constant within a single request.
- `get_cached_team_data` additionally returns the number of upstream fetch
  invocations it performed (0 or 1), so that fetch-call counting claims are
  statable.
-/

/-- JSON-like values, the shape of `resp.json()` payloads and of rendered
response bodies. -/
inductive Json where
  | null : Json
  | bool : Bool → Json
  | num : Int → Json
  | str : String → Json
  | arr : List Json → Json
  | obj : List (String × Json) → Json

/-- Errors a request handler can produce: an explicit `HTTPException`
(status code and detail string), or an uncaught `AttributeError` from calling
`.get` on a non-dict value. -/
inductive PyError where
  | http : Nat → String → PyError
  | attributeError : PyError
deriving Repr, DecidableEq

/-- One entry of the `leagues:` list in `config.yaml`; fields read with
`league.get(...)`, hence `Option`. -/
structure LeagueConfig where
  league : Option String
  sport_path : Option String
  sport : Option String
deriving Repr, DecidableEq

/-- One value of the `teams:` mapping in `config.yaml`; fields read with
`team_info.get(...)`, hence `Option`. -/
structure TeamInfo where
  name : Option String
  league : Option String
  espn_slug : Option String
  espn_id : Option Int
deriving Repr, DecidableEq

/-- The parsed `config.yaml`: `config.get("leagues", [])` and
`config.get("teams", {})`. Python dicts iterate in insertion order, so the
teams mapping is an insertion-ordered association list. -/
structure Config where
  leagues : List LeagueConfig
  teams : List (String × TeamInfo)
deriving Repr, DecidableEq

/-- Python truthiness of an optional string: `None` and `""` are falsy. -/
def strTruthy : Option String → Bool
  | none => false
  | some s => s != ""

/-- Python truthiness of an optional integer: `None` and `0` are falsy. -/
def intTruthy : Option Int → Bool
  | none => false
  | some n => n != 0

/-- Python `str(x)` / f-string interpolation of an optional string:
`None` renders as `"None"`. -/
def pyStr : Option String → String
  | none => "None"
  | some s => s

/-- Python f-string interpolation of an optional integer. -/
def pyIntStr : Option Int → String
  | none => "None"
  | some n => toString n

/-- Python `a or b` on two optional strings: `a` when truthy, else `b`. -/
def pyOr (a b : Option String) : Option String :=
  if strTruthy a then a else b

/-- Python truthiness of a JSON value (`if logos`). -/
def pyTruthy : Json → Bool
  | .null => false
  | .bool b => b
  | .num n => n != 0
  | .str s => s != ""
  | .arr xs => !xs.isEmpty
  | .obj kvs => !kvs.isEmpty

/-- Python `d.get(k, default)`: on a dict, the stored value or the default;
on any non-dict value, an `AttributeError`. -/
def jsonGetD (j : Json) (k : String) (d : Json) : Except Unit Json :=
  match j with
  | .obj kvs => .ok ((((kvs.find? (fun p => p.1 == k))).map (fun p => p.2)).getD d)
  | _ => .error ()

/-- Python `d.get(k)` (implicit default `None`). -/
def jsonGet1 (j : Json) (k : String) : Except Unit Json :=
  jsonGetD j k Json.null

/-- Render an optional string as a JSON response field (`None` → `null`). -/
def optJson : Option String → Json
  | none => Json.null
  | some s => Json.str s

/-- The module-level `cache` dict: `{key: (timestamp, data)}`, as an
association list with insertion-order semantics. -/
abbrev Cache := List (String × (Int × Json))

/-- `key in cache` / `cache[key]`. -/
def cacheLookup (c : Cache) (k : String) : Option (Int × Json) :=
  (c.find? (fun p => p.1 == k)).map (fun p => p.2)

/-- `cache[key] = v`: replace in place when the key exists, else append. -/
def cacheUpdate : Cache → String → (Int × Json) → Cache
  | [], k, v => [(k, v)]
  | (k', v') :: rest, k, v =>
      if k' == k then (k, v) :: rest else (k', v') :: cacheUpdate rest k v

/-- `CACHE_EXPIRATION = 60 * 60` (seconds). -/
def CACHE_EXPIRATION : Int := 60 * 60

/-- The upstream HTTP layer: `requests.get(url)` followed by
`raise_for_status()` and `.json()`, abstracted as a function from the request
URL to either a payload or an exception message. -/
abbrev Upstream := String → Except String Json

/-- The URL built by `fetch_team_data`. -/
def espnUrl (sport_slug league_slug : Option String) (team_id : Option Int) : String :=
  "https://site.api.espn.com/apis/site/v2/sports/" ++ pyStr sport_slug ++ "/"
    ++ pyStr league_slug ++ "/teams/" ++ pyIntStr team_id

/-- `fetch_team_data`: perform the upstream request; on any
`requests.RequestException`, raise `HTTPException(500, "Error fetching ESPN data: ...")`. -/
def fetch_team_data (u : Upstream) (sport_slug league_slug : Option String)
    (team_id : Option Int) : Except PyError Json :=
  match u (espnUrl sport_slug league_slug team_id) with
  | .ok j => .ok j
  | .error e => .error (.http 500 ("Error fetching ESPN data: " ++ e))

/-- `key = f"{league_slug}:{team_slug}"`. -/
def cacheKey (league_slug team_slug : Option String) : String :=
  pyStr league_slug ++ ":" ++ pyStr team_slug

/-- The miss/stale path of `get_cached_team_data`: fetch, and on success store
`(now, data)` under `key`. The third component counts upstream fetch
invocations. -/
def fetchAndStore (u : Upstream) (now : Int) (cache : Cache) (key : String)
    (sport_slug league_slug : Option String) (team_id : Option Int) :
    Except PyError Json × Cache × Nat :=
  match fetch_team_data u sport_slug league_slug team_id with
  | .ok data => (.ok data, cacheUpdate cache key (now, data), 1)
  | .error e => (.error e, cache, 1)

/-- `get_cached_team_data`: serve a cached entry younger than
`CACHE_EXPIRATION`, else fetch and store. Returns (result, resulting cache,
number of upstream fetches performed). -/
def get_cached_team_data (u : Upstream) (now : Int) (cache : Cache)
    (sport_slug league_slug team_slug : Option String) (team_id : Option Int) :
    Except PyError Json × Cache × Nat :=
  match cacheLookup cache (cacheKey league_slug team_slug) with
  | some (ts, data) =>
      if now - ts < CACHE_EXPIRATION then (.ok data, cache, 0)
      else fetchAndStore u now cache (cacheKey league_slug team_slug) sport_slug league_slug team_id
  | none => fetchAndStore u now cache (cacheKey league_slug team_slug) sport_slug league_slug team_id

/-- `find_sport_slug`: first league whose `league` field equals the given
slug; return its `sport_path or sport`; `None` when no league matches. -/
def find_sport_slug (cfg : Config) (league_slug : Option String) : Option String :=
  match cfg.leagues.find? (fun l => l.league == league_slug) with
  | some l => pyOr l.sport_path l.sport
  | none => none

/-- The scan in `api_team`: first team whose `espn_slug` and `league` both
match the path parameters. -/
def findTeam (cfg : Config) (team_slug league_slug : String) :
    Option (String × TeamInfo) :=
  cfg.teams.find? (fun p => p.2.espn_slug == some team_slug && p.2.league == some league_slug)

/-- `GET /api/espn/team/{team_slug}/{league_slug}` (`api_team`). -/
def api_team (u : Upstream) (cfg : Config) (now : Int) (cache : Cache)
    (team_slug league_slug : String) : Except PyError Json × Cache :=
  match findTeam cfg team_slug league_slug with
  | some (_, info) =>
      if !intTruthy info.espn_id then
        (.error (.http 404 "Team ESPN ID not found in config"), cache)
      else if !strTruthy (find_sport_slug cfg (some league_slug)) then
        (.error (.http 404 "Sport slug not found in config"), cache)
      else
        match get_cached_team_data u now cache (find_sport_slug cfg (some league_slug))
          (some league_slug) (some team_slug) info.espn_id with
        | (r, c, _) => (r, c)
  | none => (.error (.http 404 "Team or league not found in config"), cache)

/-- The scan in `api_team_no_league`: first team whose `espn_slug` matches. -/
def findTeamBySlug (cfg : Config) (team_slug : String) :
    Option (String × TeamInfo) :=
  cfg.teams.find? (fun p => p.2.espn_slug == some team_slug)

/-- `GET /api/espn/team/{team_slug}` (`api_team_no_league`). -/
def api_team_no_league (u : Upstream) (cfg : Config) (now : Int) (cache : Cache)
    (team_slug : String) : Except PyError Json × Cache :=
  match findTeamBySlug cfg team_slug with
  | some (_, info) =>
      if !(intTruthy info.espn_id && strTruthy info.league) then
        (.error (.http 404 "Team ESPN ID or league not found in config"), cache)
      else if !strTruthy (find_sport_slug cfg info.league) then
        (.error (.http 404 "Sport slug not found in config"), cache)
      else
        match get_cached_team_data u now cache (find_sport_slug cfg info.league)
          info.league (some team_slug) info.espn_id with
        | (r, c, _) => (r, c)
  | none => (.error (.http 404 "Team not found in config"), cache)

/-- `GET /api/espn/fixtures/{team_slug}/{league_slug}` (`api_fixtures`):
after resolution, `data.get("team", {}).get("nextEvent", [])` wrapped as
`{"fixtures": ...}`. -/
def api_fixtures (u : Upstream) (cfg : Config) (now : Int) (cache : Cache)
    (team_slug league_slug : String) : Except PyError Json × Cache :=
  match findTeam cfg team_slug league_slug with
  | some (_, info) =>
      if !intTruthy info.espn_id then
        (.error (.http 404 "Team ESPN ID not found in config"), cache)
      else if !strTruthy (find_sport_slug cfg (some league_slug)) then
        (.error (.http 404 "Sport slug not found in config"), cache)
      else
        match get_cached_team_data u now cache (find_sport_slug cfg (some league_slug))
          (some league_slug) (some team_slug) info.espn_id with
        | (.error e, c, _) => (.error e, c)
        | (.ok data, c, _) =>
            match jsonGetD data "team" (Json.obj []) with
            | .error _ => (.error .attributeError, c)
            | .ok tv =>
                match jsonGetD tv "nextEvent" (Json.arr []) with
                | .error _ => (.error .attributeError, c)
                | .ok fx => (.ok (Json.obj [("fixtures", fx)]), c)
  | none => (.error (.http 404 "Team or league not found in config"), cache)

/-- The body of the `try:` block in `get_all_teams` after the fetch:
logo extraction and row construction. `none` models an exception swallowed by
`except Exception: continue`. -/
def rowOf (info : TeamInfo) (data : Json) : Option Json :=
  match jsonGetD data "team" (Json.obj []) with
  | .error _ => none
  | .ok tv =>
      match jsonGetD tv "logos" (Json.arr []) with
      | .error _ => none
      | .ok logos =>
          let logoE : Except Unit Json :=
            if pyTruthy logos then
              match logos with
              | .arr (h :: _) => jsonGet1 h "href"
              | _ => .error ()
            else .ok .null
          match logoE with
          | .error _ => none
          | .ok logo =>
              some (.obj [("name", optJson info.name), ("league", optJson info.league),
                ("espn_slug", optJson info.espn_slug), ("logo", logo)])

/-- One iteration of the loop in `get_all_teams`: skip when the sport slug is
falsy; otherwise attempt the cached fetch and row construction, swallowing any
exception. Returns the optional row and the resulting cache. -/
def perTeam (u : Upstream) (cfg : Config) (now : Int) (cache : Cache)
    (info : TeamInfo) : Option Json × Cache :=
  if !strTruthy (find_sport_slug cfg info.league) then (none, cache)
  else
    match get_cached_team_data u now cache (find_sport_slug cfg info.league)
      info.league info.espn_slug info.espn_id with
    | (.error _, c, _) => (none, c)
    | (.ok data, c, _) => (rowOf info data, c)

/-- The loop of `get_all_teams` over the remaining configured teams. -/
def allTeamsGo (u : Upstream) (cfg : Config) (now : Int) :
    List (String × TeamInfo) → Cache → List Json × Cache
  | [], c => ([], c)
  | (_, info) :: rest, c =>
      match perTeam u cfg now c info with
      | (some row, c') =>
          match allTeamsGo u cfg now rest c' with
          | (rs, c'') => (row :: rs, c'')
      | (none, c') => allTeamsGo u cfg now rest c'

/-- `GET /api/teams` (`get_all_teams`): best-effort listing over all
configured teams. Always returns a list (HTTP success). -/
def get_all_teams (u : Upstream) (cfg : Config) (now : Int) (cache : Cache) :
    List Json × Cache :=
  allTeamsGo u cfg now cfg.teams cache

/-! ## Concrete fixtures used by witnesses and counterexamples -/

/-- A well-shaped upstream payload with fixtures and a logo. -/
def payloadA : Json :=
  .obj [("team", .obj [
    ("nextEvent", .arr [.str "match1"]),
    ("logos", .arr [.obj [("href", .str "http://logo/a.png")]])])]

/-- A payload whose team has an empty logo list and no nextEvent. -/
def payloadB : Json :=
  .obj [("team", .obj [("logos", .arr [])])]

/-- An upstream oracle that always succeeds with `payloadA`. -/
def uOkA : Upstream := fun _ => .ok payloadA

/-- An upstream oracle that always fails. -/
def uFail : Upstream := fun _ => .error "boom"

/-- The EPL league entry used in fixtures. -/
def leagueEPL : LeagueConfig := ⟨some "epl", some "soccer/eng.1", none⟩

/-- A one-team config: Arsenal in the EPL. -/
def cfgA : Config :=
  ⟨[leagueEPL], [("arsenal", ⟨some "Arsenal", some "epl", some "ars", some 359⟩)]⟩

/-! ## C1: cache freshness and refresh -/

/-- C1: on a call to `get_cached_team_data`, if the cache holds an entry for
key `(league_slug, team_slug)` whose age `now - fetched_at` is strictly below
`CACHE_EXPIRATION` (3600 s), that entry's payload is returned with no upstream
fetch and the cache unchanged; otherwise (no entry, or age at least 3600 s)
the upstream fetch is invoked exactly once and, on fetch success, the whole
entry for the key is replaced by `(now, payload)` and the payload is returned.
A stored payload of age at least 3600 s is thus never served from the cache. -/
theorem C1_cache_freshness (u : Upstream) (now : Int) (cache : Cache)
    (sport_slug league_slug team_slug : Option String) (team_id : Option Int) :
    (∀ ts data, cacheLookup cache (cacheKey league_slug team_slug) = some (ts, data) →
        now - ts < CACHE_EXPIRATION →
        get_cached_team_data u now cache sport_slug league_slug team_slug team_id
          = (Except.ok data, cache, 0)) ∧
    ((∀ ts data, cacheLookup cache (cacheKey league_slug team_slug) = some (ts, data) →
        CACHE_EXPIRATION ≤ now - ts) →
      (get_cached_team_data u now cache sport_slug league_slug team_slug team_id).2.2 = 1 ∧
      ∀ data, u (espnUrl sport_slug league_slug team_id) = Except.ok data →
        get_cached_team_data u now cache sport_slug league_slug team_slug team_id
          = (Except.ok data,
             cacheUpdate cache (cacheKey league_slug team_slug) (now, data), 1)) := by
  constructor
  · intro ts data hl hf
    unfold get_cached_team_data
    rw [hl]
    simp [hf]
  · intro hstale
    unfold get_cached_team_data
    cases hl : cacheLookup cache (cacheKey league_slug team_slug) with
    | none =>
        constructor
        · unfold fetchAndStore fetch_team_data
          cases u (espnUrl sport_slug league_slug team_id) <;> simp
        · intro data hu
          simp [fetchAndStore, fetch_team_data, hu]
    | some p =>
        obtain ⟨ts, data⟩ := p
        have hge := hstale ts data hl
        dsimp only
        rw [if_neg (not_lt.mpr hge)]
        constructor
        · unfold fetchAndStore fetch_team_data
          cases u (espnUrl sport_slug league_slug team_id) <;> simp
        · intro d hu
          simp [fetchAndStore, fetch_team_data, hu]

/-- Witness for C1 at concrete inputs: a fresh hit (age 50 s) is served from
the cache with no fetch; a miss on the empty cache fetches once and stores. -/
theorem C1_cache_freshness_witness :
    get_cached_team_data uOkA 100 [("epl:ars", (50, payloadB))]
        (some "soccer/eng.1") (some "epl") (some "ars") (some 359)
      = (Except.ok payloadB, [("epl:ars", (50, payloadB))], 0) ∧
    get_cached_team_data uOkA 100 [] (some "soccer/eng.1") (some "epl") (some "ars") (some 359)
      = (Except.ok payloadA, [("epl:ars", (100, payloadA))], 1) := by
  constructor
  · exact (C1_cache_freshness uOkA 100 [("epl:ars", (50, payloadB))]
      (some "soccer/eng.1") (some "epl") (some "ars") (some 359)).1 50 payloadB rfl (by decide)
  · have h := ((C1_cache_freshness uOkA 100 []
      (some "soccer/eng.1") (some "epl") (some "ars") (some 359)).2
      (by intro ts d h; simp [cacheLookup] at h)).2 payloadA rfl
    simpa [cacheKey, pyStr, cacheUpdate] using h

/-! ## C2: fetch failure propagates and leaves the cache untouched -/

/-- C2: when the upstream fetch fails during `get_cached_team_data` (which
requires that no fresh entry satisfied the call), the `HTTPException` 500
propagates to the caller and the resulting cache is exactly the cache before
the call: any existing stale entry is neither evicted, replaced, returned,
nor has its timestamp changed, and no new entry is stored. -/
theorem C2_fetch_failure_preserves_cache (u : Upstream) (now : Int) (cache : Cache)
    (sport_slug league_slug team_slug : Option String) (team_id : Option Int) (e : String)
    (hfail : u (espnUrl sport_slug league_slug team_id) = Except.error e)
    (hstale : ∀ ts data, cacheLookup cache (cacheKey league_slug team_slug) = some (ts, data) →
      CACHE_EXPIRATION ≤ now - ts) :
    get_cached_team_data u now cache sport_slug league_slug team_slug team_id
      = (Except.error (PyError.http 500 ("Error fetching ESPN data: " ++ e)), cache, 1) := by
  unfold get_cached_team_data
  cases hl : cacheLookup cache (cacheKey league_slug team_slug) with
  | none => simp [fetchAndStore, fetch_team_data, hfail]
  | some p =>
      obtain ⟨ts, data⟩ := p
      have hge := hstale ts data hl
      dsimp only
      rw [if_neg (not_lt.mpr hge)]
      simp [fetchAndStore, fetch_team_data, hfail]

/-- Witness for C2: with a stale entry (age exactly 3600 s) and a failing
upstream, the error propagates and the stale entry survives unchanged. -/
theorem C2_fetch_failure_preserves_cache_witness :
    get_cached_team_data uFail 3700 [("epl:ars", (100, payloadB))]
        (some "soccer/eng.1") (some "epl") (some "ars") (some 359)
      = (Except.error (PyError.http 500 "Error fetching ESPN data: boom"),
         [("epl:ars", (100, payloadB))], 1) := by
  exact C2_fetch_failure_preserves_cache uFail 3700 [("epl:ars", (100, payloadB))]
    (some "soccer/eng.1") (some "epl") (some "ars") (some 359) "boom" rfl
    (by intro ts d h
        simp [cacheLookup, cacheKey, pyStr] at h
        obtain ⟨rfl, rfl⟩ := h
        decide)

/-! ## C3: cache-key derivation -/

/-- Counterexample to C3 as stated: the key is the string
`league_slug ++ ":" ++ team_slug`, which is not injective on arbitrary pairs —
the distinct pairs `("a:b", "c")` and `("a", "b:c")` derive the same key
`"a:b:c"` and therefore share a cache slot. -/
theorem C3_key_injective_counterexample :
    cacheKey (some "a:b") (some "c") = cacheKey (some "a") (some "b:c") ∧
    ¬(("a:b", "c") = ("a", "b:c")) := by
  constructor
  · rfl
  · decide

/-- Helper for C3: splitting at a separator absent from both prefixes is
injective. -/
theorem sep_append_inj {sep : Char} {a b c d : List Char}
    (ha : sep ∉ a) (hc : sep ∉ c) (h : a ++ sep :: b = c ++ sep :: d) :
    a = c ∧ b = d := by
  induction a generalizing c with
  | nil =>
      cases c with
      | nil => simpa using h
      | cons y ys =>
          simp only [List.nil_append, List.cons_append, List.cons.injEq] at h
          exact absurd (h.1 ▸ List.mem_cons_self y ys) hc
  | cons x xs ih =>
      cases c with
      | nil =>
          simp only [List.nil_append, List.cons_append, List.cons.injEq] at h
          exact absurd (h.1 ▸ List.mem_cons_self x xs) ha
      | cons y ys =>
          simp only [List.cons_append, List.cons.injEq] at h
          obtain ⟨rfl, h2⟩ := h
          have hr := ih (fun hm => ha (List.mem_cons_of_mem _ hm))
            (fun hm => hc (List.mem_cons_of_mem _ hm)) h2
          exact ⟨by rw [hr.1], hr.2⟩

/-- C3 amended: key derivation is deterministic (it is a pure function of the
`(league_slug, team_slug)` pair), and it is injective on all pairs whose
league slug contains no `:` character; distinct such pairs never share a
cache slot. Injectivity does not hold for arbitrary strings (see the
counterexample): a `:` inside the league slug can make distinct pairs
collide. -/
theorem C3_key_deterministic_and_injective (l1 t1 l2 t2 : String)
    (h1 : (':' : Char) ∉ l1.data) (h2 : (':' : Char) ∉ l2.data)
    (heq : cacheKey (some l1) (some t1) = cacheKey (some l2) (some t2)) :
    l1 = l2 ∧ t1 = t2 := by
  have hd : l1.data ++ ':' :: t1.data = l2.data ++ ':' :: t2.data := by
    have hcolon : (":" : String).data = [':'] := rfl
    have := congrArg String.data heq
    simpa [cacheKey, pyStr, String.data_append, hcolon] using this
  have hsplit := sep_append_inj h1 h2 hd
  exact ⟨String.ext hsplit.1, String.ext hsplit.2⟩

/-- Witness for the amended C3 at concrete colon-free slugs. -/
theorem C3_key_deterministic_and_injective_witness :
    ("epl" : String) = "epl" ∧ ("ars" : String) = "ars" :=
  C3_key_deterministic_and_injective "epl" "ars" "epl" "ars" (by decide) (by decide) rfl

/-! ## Shared helper lemmas -/

/-- A fresh cache hit returns the stored payload, leaves the cache unchanged
and performs no upstream fetch. -/
theorem gctd_fresh_hit (u : Upstream) (now : Int) (cache : Cache)
    (sport_slug league_slug team_slug : Option String) (team_id : Option Int)
    (ts : Int) (data : Json)
    (hl : cacheLookup cache (cacheKey league_slug team_slug) = some (ts, data))
    (hf : now - ts < CACHE_EXPIRATION) :
    get_cached_team_data u now cache sport_slug league_slug team_slug team_id
      = (Except.ok data, cache, 0) := by
  unfold get_cached_team_data
  rw [hl]
  simp [hf]

/-! ## More concrete fixtures -/

/-- A second league entry (Spanish league) used in two-league fixtures. -/
def leagueLaLiga : LeagueConfig := ⟨some "laliga", some "soccer/esp.1", none⟩

/-- Arsenal in the EPL, with a valid provider id. -/
def infoArsEpl : TeamInfo := ⟨some "Arsenal", some "epl", some "ars", some 359⟩

/-- A second team with the same slug in a different league. -/
def infoArsLaLiga : TeamInfo := ⟨some "Arsenal ESP", some "laliga", some "ars", some 1000⟩

/-- A team entry with the right slug and league but no provider id. -/
def infoArsNoId : TeamInfo := ⟨some "Arsenal Dup", some "epl", some "ars", none⟩

/-- A config whose first matching team entry lacks a provider id while a
later entry with the same slug and league has a valid one. -/
def cfgDup : Config := ⟨[leagueEPL], [("bad", infoArsNoId), ("good", infoArsEpl)]⟩

/-- A two-league config with the same team slug in both leagues. -/
def cfgTwoLeagues : Config :=
  ⟨[leagueEPL, leagueLaLiga], [("a1", infoArsEpl), ("a2", infoArsLaLiga)]⟩

/-- An upstream oracle returning `payloadA` only for the EPL request URL of
Arsenal, and `payloadB` for every other URL. -/
def uByLeague : Upstream := fun url =>
  if url = espnUrl (some "soccer/eng.1") (some "epl") (some 359) then .ok payloadA
  else .ok payloadB

/-! ## C10: the (slug, league) scan is first-match-only -/

/-- C10: in `api_team`, the scan over the config table stops at the first
entry matching both slug and league; if that entry's `espn_id` is absent or
zero, the endpoint fails with 404 immediately, regardless of any later
entries (which are never consulted). -/
theorem C10_first_match_missing_id_404 (u : Upstream) (leagues : List LeagueConfig)
    (now : Int) (cache : Cache) (k1 : String) (info1 : TeamInfo)
    (rest : List (String × TeamInfo)) (t l : String)
    (hslug : info1.espn_slug = some t) (hleague : info1.league = some l)
    (hid : intTruthy info1.espn_id = false) :
    api_team u ⟨leagues, (k1, info1) :: rest⟩ now cache t l
      = (Except.error (PyError.http 404 "Team ESPN ID not found in config"), cache) := by
  unfold api_team findTeam
  simp [List.find?, hslug, hleague, hid]

/-- Witness for C10: a config whose first `(ars, epl)` entry has no id and
whose second has a valid one still yields 404. -/
theorem C10_first_match_missing_id_404_witness :
    api_team uOkA cfgDup 0 [] "ars" "epl"
      = (Except.error (PyError.http 404 "Team ESPN ID not found in config"), []) :=
  C10_first_match_missing_id_404 uOkA [leagueEPL] 0 [] "bad" infoArsNoId
    [("good", infoArsEpl)] "ars" "epl" rfl rfl rfl

/-! ## C8: no-league lookup resolves the first slug match -/

/-- C8: `GET /team/{team_slug}` resolves to the first team in config
iteration (insertion) order whose `espn_slug` equals the given slug — once a
first match exists, every later entry is irrelevant to the result; concretely,
with two teams sharing slug `ars` in `epl` and `laliga` (in that order), the
EPL team is the one resolved and fetched. -/
theorem C8_no_league_first_match_wins :
    (∀ (u : Upstream) (leagues : List LeagueConfig) (now : Int) (cache : Cache)
        (slug k : String) (info : TeamInfo) (rest : List (String × TeamInfo)),
      info.espn_slug = some slug →
      api_team_no_league u ⟨leagues, (k, info) :: rest⟩ now cache slug
        = api_team_no_league u ⟨leagues, [(k, info)]⟩ now cache slug) ∧
    api_team_no_league uByLeague cfgTwoLeagues 0 [] "ars"
      = (Except.ok payloadA, [("epl:ars", (0, payloadA))]) := by
  constructor
  · intro u leagues now cache slug k info rest hmatch
    unfold api_team_no_league findTeamBySlug
    simp [List.find?, hmatch, find_sport_slug]
  · rfl

/-- Witness for C8: in the two-league fixture, the later `laliga` entry can
be dropped without changing the endpoint's result. -/
theorem C8_no_league_first_match_wins_witness :
    api_team_no_league uByLeague cfgTwoLeagues 0 [] "ars"
      = api_team_no_league uByLeague ⟨[leagueEPL, leagueLaLiga], [("a1", infoArsEpl)]⟩ 0 [] "ars" :=
  C8_no_league_first_match_wins.1 uByLeague [leagueEPL, leagueLaLiga] 0 [] "ars" "a1"
    infoArsEpl [("a2", infoArsLaLiga)] rfl

/-! ## C9: fresh hits ignore sport_slug and team_id -/

/-- Helper: one `get_all_teams` iteration under a fresh cache hit produces the
row for the cached payload without touching the upstream or the cache. -/
theorem perTeam_fresh (u : Upstream) (cfg : Config) (now : Int) (cache : Cache)
    (info : TeamInfo) (ts : Int) (data : Json)
    (hsport : strTruthy (find_sport_slug cfg info.league) = true)
    (hl : cacheLookup cache (cacheKey info.league info.espn_slug) = some (ts, data))
    (hf : now - ts < CACHE_EXPIRATION) :
    perTeam u cfg now cache info = (rowOf info data, cache) := by
  unfold perTeam
  rw [hsport, gctd_fresh_hit u now cache (find_sport_slug cfg info.league)
    info.league info.espn_slug info.espn_id ts data hl hf]
  simp

/-- C9: when a fresh entry exists for `(league_slug, team_slug)`, the result
of `get_cached_team_data` does not depend on `sport_slug` or `team_id` (calls
differing only there, including `team_id = None`, return the same payload with
no upstream fetch); consequently a configured team with no `espn_id` still
produces its row in `GET /teams` when its key is freshly cached. -/
theorem C9_fresh_hit_independence :
    (∀ (u : Upstream) (now : Int) (cache : Cache) (league_slug team_slug : Option String)
        (ts : Int) (data : Json) (s1 s2 : Option String) (id1 id2 : Option Int),
      cacheLookup cache (cacheKey league_slug team_slug) = some (ts, data) →
      now - ts < CACHE_EXPIRATION →
      get_cached_team_data u now cache s1 league_slug team_slug id1
          = (Except.ok data, cache, 0) ∧
      get_cached_team_data u now cache s1 league_slug team_slug id1
          = get_cached_team_data u now cache s2 league_slug team_slug id2) ∧
    (∀ (u : Upstream) (leagues : List LeagueConfig) (now : Int) (cache : Cache)
        (k : String) (info : TeamInfo) (ts : Int) (data row : Json),
      info.espn_id = none →
      strTruthy (find_sport_slug ⟨leagues, [(k, info)]⟩ info.league) = true →
      cacheLookup cache (cacheKey info.league info.espn_slug) = some (ts, data) →
      now - ts < CACHE_EXPIRATION →
      rowOf info data = some row →
      get_all_teams u ⟨leagues, [(k, info)]⟩ now cache = ([row], cache)) := by
  constructor
  · intro u now cache l t ts data s1 s2 id1 id2 hl hf
    refine ⟨gctd_fresh_hit u now cache s1 l t id1 ts data hl hf, ?_⟩
    rw [gctd_fresh_hit u now cache s1 l t id1 ts data hl hf,
        gctd_fresh_hit u now cache s2 l t id2 ts data hl hf]
  · intro u leagues now cache k info ts data row hid hsport hl hf hrow
    unfold get_all_teams allTeamsGo
    rw [perTeam_fresh u ⟨leagues, [(k, info)]⟩ now cache info ts data hsport hl hf, hrow]
    simp [allTeamsGo]

/-- Witness for C9: with `epl:ars` freshly cached, a call with a dummy sport
slug and id 359 equals a call with both arguments `None`, no fetch happens
(the upstream here always fails), and the id-less team still gets its
`GET /teams` row. -/
theorem C9_fresh_hit_independence_witness :
    (get_cached_team_data uFail 100 [("epl:ars", (50, payloadA))]
        (some "s1") (some "epl") (some "ars") (some 359)
      = (Except.ok payloadA, [("epl:ars", (50, payloadA))], 0) ∧
     get_cached_team_data uFail 100 [("epl:ars", (50, payloadA))]
        (some "s1") (some "epl") (some "ars") (some 359)
      = get_cached_team_data uFail 100 [("epl:ars", (50, payloadA))]
          none (some "epl") (some "ars") none) ∧
    get_all_teams uFail ⟨[leagueEPL], [("a", infoArsNoId)]⟩ 100 [("epl:ars", (50, payloadA))]
      = ([Json.obj [("name", Json.str "Arsenal Dup"), ("league", Json.str "epl"),
           ("espn_slug", Json.str "ars"), ("logo", Json.str "http://logo/a.png")]],
         [("epl:ars", (50, payloadA))]) := by
  constructor
  · exact C9_fresh_hit_independence.1 uFail 100 [("epl:ars", (50, payloadA))]
      (some "epl") (some "ars") 50 payloadA (some "s1") none (some 359) none rfl (by decide)
  · exact C9_fresh_hit_independence.2 uFail [leagueEPL] 100 [("epl:ars", (50, payloadA))]
      "a" infoArsNoId 50 payloadA _ rfl (by decide) rfl (by decide) rfl

/-! ## C7: sport-path resolution -/

/-- A league configured with an explicit but empty `sport_path` and a generic
`sport` field. -/
def leagueEmptyPath : LeagueConfig := ⟨some "mls", some "", some "soccer"⟩

/-- A config containing only `leagueEmptyPath`. -/
def cfgEmptyPath : Config := ⟨[leagueEmptyPath], []⟩

/-- A config with a team but no league entries, so sport resolution fails. -/
def cfgNoLeague : Config := ⟨[], [("arsenal", infoArsEpl)]⟩

/-- Counterexample to C7 as stated: a league whose `sport_path` is present
but empty (`""`) does not resolve to that `sport_path`; Python's `or` falls
through to the generic `sport` field on any falsy value, not only on an
absent one. -/
theorem C7_sport_path_counterexample :
    find_sport_slug cfgEmptyPath (some "mls") = some "soccer" ∧
    find_sport_slug cfgEmptyPath (some "mls") ≠ some "" := by
  constructor
  · rfl
  · decide

/-- C7 amended: `find_sport_slug` returns the matching league's explicit
`sport_path` when it is present and non-empty, falls back to the league's
generic `sport` field when `sport_path` is absent or empty, and returns the
`sport` field itself (hence `None` when that is also absent) in the fallback
case; when no league matches it returns `None`; and whenever the resolved
value is falsy, `api_team` fails with 404 "Sport slug not found in config". -/
theorem C7_find_sport_slug_resolution (cfg : Config) (league_slug : Option String) :
    (cfg.leagues.find? (fun l => l.league == league_slug) = none →
      find_sport_slug cfg league_slug = none) ∧
    (∀ L, cfg.leagues.find? (fun l => l.league == league_slug) = some L →
      (∀ p, L.sport_path = some p → p ≠ "" →
        find_sport_slug cfg league_slug = some p) ∧
      ((L.sport_path = none ∨ L.sport_path = some "") →
        find_sport_slug cfg league_slug = L.sport)) ∧
    (∀ (u : Upstream) (now : Int) (cache : Cache) (t l k : String) (info : TeamInfo),
      findTeam cfg t l = some (k, info) →
      intTruthy info.espn_id = true →
      strTruthy (find_sport_slug cfg (some l)) = false →
      api_team u cfg now cache t l
        = (Except.error (PyError.http 404 "Sport slug not found in config"), cache)) := by
  refine ⟨?_, ?_, ?_⟩
  · intro hnone
    unfold find_sport_slug
    rw [hnone]
  · intro L hfind
    constructor
    · intro p hp hne
      unfold find_sport_slug
      rw [hfind]
      simp [pyOr, strTruthy, hp, hne]
    · intro hcase
      unfold find_sport_slug
      rw [hfind]
      rcases hcase with h | h <;> simp [pyOr, strTruthy, h]
  · intro u now cache t l k info hfind hid hsport
    unfold api_team
    rw [hfind]
    simp [hid, hsport]

/-- Witness for C7 at concrete configs: no match yields none; a non-empty
explicit path wins; a match failure surfaces as the 404 sport-slug error. -/
theorem C7_find_sport_slug_resolution_witness :
    find_sport_slug cfgA (some "nba") = none ∧
    find_sport_slug cfgA (some "epl") = some "soccer/eng.1" ∧
    api_team uOkA cfgNoLeague 0 [] "ars" "epl"
      = (Except.error (PyError.http 404 "Sport slug not found in config"), []) := by
  refine ⟨?_, ?_, ?_⟩
  · exact (C7_find_sport_slug_resolution cfgA (some "nba")).1 (by decide)
  · exact ((C7_find_sport_slug_resolution cfgA (some "epl")).2.1 leagueEPL
      (by decide)).1 "soccer/eng.1" rfl (by decide)
  · exact (C7_find_sport_slug_resolution cfgNoLeague (some "epl")).2.2 uOkA 0 [] "ars" "epl"
      "arsenal" infoArsEpl (by decide) (by decide) (by decide)

/-! ## C6: fixtures projection -/

/-- A payload whose `team` field is present but not a mapping. -/
def payloadBadTeam : Json := .obj [("team", .num 5)]

/-- Counterexample to C6 as stated: with a resolvable team and a cached
payload in which `team` is present but not a mapping — so the path
`payload.team.nextEvent` is absent at the second level — `api_fixtures` does
not return an empty fixtures object; the chained `.get` calls raise
`AttributeError` (an unhandled server error), because only the key-missing
case is defaulted, not the non-mapping case. -/
theorem C6_fixtures_counterexample :
    api_fixtures uFail cfgA 100 [("epl:ars", (50, payloadBadTeam))] "ars" "epl"
      = (Except.error PyError.attributeError, [("epl:ars", (50, payloadBadTeam))]) ∧
    (Except.error PyError.attributeError : Except PyError Json)
      ≠ Except.ok (Json.obj [("fixtures", Json.arr [])]) := by
  exact ⟨rfl, fun h => Except.noConfusion h⟩

/-- C6 amended: when resolution succeeds and the cached payload is served,
`api_fixtures` returns an object whose `fixtures` field is the value at
`payload.team.nextEvent`, defaulting to the empty sequence when the `team`
key is absent from the payload mapping or the `nextEvent` key is absent from
the team mapping — provided each traversed level that is present is a
mapping (otherwise an `AttributeError` is raised instead, see the
counterexample); and when no team matches the slug and league, the endpoint
fails with 404. -/
theorem C6_fixtures_projection (u : Upstream) (cfg : Config) (now : Int) (cache : Cache)
    (t l : String) :
    (∀ (k : String) (info : TeamInfo) (ts : Int) (kvs : List (String × Json)),
      findTeam cfg t l = some (k, info) →
      intTruthy info.espn_id = true →
      strTruthy (find_sport_slug cfg (some l)) = true →
      cacheLookup cache (cacheKey (some l) (some t)) = some (ts, Json.obj kvs) →
      now - ts < CACHE_EXPIRATION →
      ((kvs.find? (fun p => p.1 == "team") = none →
        api_fixtures u cfg now cache t l
          = (Except.ok (Json.obj [("fixtures", Json.arr [])]), cache)) ∧
       (∀ tkvs, ((kvs.find? (fun p => p.1 == "team")).map (fun p => p.2))
            = some (Json.obj tkvs) →
        api_fixtures u cfg now cache t l
          = (Except.ok (Json.obj [("fixtures",
              (((tkvs.find? (fun p => p.1 == "nextEvent")).map (fun p => p.2)).getD
                (Json.arr [])))]), cache)))) ∧
    (findTeam cfg t l = none →
      api_fixtures u cfg now cache t l
        = (Except.error (PyError.http 404 "Team or league not found in config"), cache)) := by
  constructor
  · intro k info ts kvs hfind hid hsport hl hf
    constructor
    · intro hnone
      unfold api_fixtures
      rw [hfind]
      simp only [hid, hsport, Bool.not_true, Bool.false_eq_true, if_false]
      rw [gctd_fresh_hit u now cache (find_sport_slug cfg (some l)) (some l) (some t)
        info.espn_id ts (Json.obj kvs) hl hf]
      simp [jsonGetD, hnone]
    · intro tkvs hsome
      unfold api_fixtures
      rw [hfind]
      simp only [hid, hsport, Bool.not_true, Bool.false_eq_true, if_false]
      rw [gctd_fresh_hit u now cache (find_sport_slug cfg (some l)) (some l) (some t)
        info.espn_id ts (Json.obj kvs) hl hf]
      simp [jsonGetD, hsome]
  · intro hnone
    unfold api_fixtures
    rw [hnone]

/-- Witness for the amended C6: a cached payload with no `team` key yields
empty fixtures; `payloadA` yields its `nextEvent` list. -/
theorem C6_fixtures_projection_witness :
    api_fixtures uFail cfgA 100 [("epl:ars", (50, Json.obj []))] "ars" "epl"
      = (Except.ok (Json.obj [("fixtures", Json.arr [])]),
         [("epl:ars", (50, Json.obj []))]) ∧
    api_fixtures uFail cfgA 100 [("epl:ars", (50, payloadA))] "ars" "epl"
      = (Except.ok (Json.obj [("fixtures", Json.arr [Json.str "match1"])]),
         [("epl:ars", (50, payloadA))]) := by
  constructor
  · exact ((C6_fixtures_projection uFail cfgA 100 [("epl:ars", (50, Json.obj []))]
      "ars" "epl").1 "arsenal" infoArsEpl 50 [] (by decide) (by decide) (by decide)
      rfl (by decide)).1 rfl
  · exact ((C6_fixtures_projection uFail cfgA 100 [("epl:ars", (50, payloadA))]
      "ars" "epl").1 "arsenal" infoArsEpl 50
      [("team", Json.obj [("nextEvent", Json.arr [Json.str "match1"]),
        ("logos", Json.arr [Json.obj [("href", Json.str "http://logo/a.png")]])])]
      (by decide) (by decide) (by decide) rfl (by decide)).2
      [("nextEvent", Json.arr [Json.str "match1"]),
       ("logos", Json.arr [Json.obj [("href", Json.str "http://logo/a.png")]])] rfl

/-! ## C5: best-effort team listing -/

/-- A configured team with no `espn_id`. -/
def infoGhost : TeamInfo := ⟨some "Ghost", some "epl", some "gho", none⟩

/-- Chelsea in the EPL, with a valid provider id. -/
def infoChe : TeamInfo := ⟨some "Chelsea", some "epl", some "che", some 363⟩

/-- Three configured teams, the middle one without a provider id. -/
def cfgThree : Config :=
  ⟨[leagueEPL], [("arsenal", infoArsEpl), ("ghost", infoGhost), ("chelsea", infoChe)]⟩

/-- An upstream oracle that fails exactly on the URL built with a missing
(`None`) team id and succeeds with `payloadA` elsewhere. -/
def uThree : Upstream := fun url =>
  if url = espnUrl (some "soccer/eng.1") (some "epl") none then .error "bad id"
  else .ok payloadA

/-- Unfolding equation for one iteration of the `get_all_teams` loop. -/
theorem allTeamsGo_cons (u : Upstream) (cfg : Config) (now : Int) (k : String)
    (info : TeamInfo) (rest : List (String × TeamInfo)) (c : Cache) :
    allTeamsGo u cfg now ((k, info) :: rest) c
      = match perTeam u cfg now c info with
        | (some row, c') =>
            match allTeamsGo u cfg now rest c' with
            | (rs, c'') => (row :: rs, c'')
        | (none, c') => allTeamsGo u cfg now rest c' := rfl

/-- C5: `GET /teams` is best-effort and total: a team whose iteration fails
(for any reason — config or upstream) is silently skipped and iteration
continues with the remaining teams and the cache state left by the attempt; a
team whose iteration succeeds contributes exactly its row; concretely, with 3
configured teams of which one lacks a provider id (its fetch fails upstream),
the listing returns exactly the 2 rows of the other teams — each row being
name, league, espn_slug and the first logo `href` — with HTTP success. -/
theorem C5_teams_best_effort :
    (∀ (u : Upstream) (cfg : Config) (now : Int) (c c' : Cache) (k : String)
        (info : TeamInfo) (rest : List (String × TeamInfo)),
      perTeam u cfg now c info = (none, c') →
      allTeamsGo u cfg now ((k, info) :: rest) c = allTeamsGo u cfg now rest c') ∧
    (∀ (u : Upstream) (cfg : Config) (now : Int) (c c' : Cache) (k : String)
        (info : TeamInfo) (rest : List (String × TeamInfo)) (row : Json),
      perTeam u cfg now c info = (some row, c') →
      allTeamsGo u cfg now ((k, info) :: rest) c
        = (row :: (allTeamsGo u cfg now rest c').1, (allTeamsGo u cfg now rest c').2)) ∧
    get_all_teams uThree cfgThree 0 []
      = ([Json.obj [("name", Json.str "Arsenal"), ("league", Json.str "epl"),
            ("espn_slug", Json.str "ars"), ("logo", Json.str "http://logo/a.png")],
          Json.obj [("name", Json.str "Chelsea"), ("league", Json.str "epl"),
            ("espn_slug", Json.str "che"), ("logo", Json.str "http://logo/a.png")]],
         [("epl:ars", (0, payloadA)), ("epl:che", (0, payloadA))]) := by
  refine ⟨?_, ?_, ?_⟩
  · intro u cfg now c c' k info rest hskip
    rw [allTeamsGo_cons, hskip]
  · intro u cfg now c c' k info rest row hrow
    rw [allTeamsGo_cons, hrow]
  · rfl

/-- Witness for C5: the skip step at the id-less team, and the row step at
the first team, instantiated from the three-team fixture. -/
theorem C5_teams_best_effort_witness :
    allTeamsGo uThree cfgThree 0 [("ghost", infoGhost), ("chelsea", infoChe)]
        [("epl:ars", (0, payloadA))]
      = allTeamsGo uThree cfgThree 0 [("chelsea", infoChe)] [("epl:ars", (0, payloadA))] ∧
    allTeamsGo uThree cfgThree 0 [("arsenal", infoArsEpl)] []
      = (Json.obj [("name", Json.str "Arsenal"), ("league", Json.str "epl"),
           ("espn_slug", Json.str "ars"), ("logo", Json.str "http://logo/a.png")]
         :: (allTeamsGo uThree cfgThree 0 [] [("epl:ars", (0, payloadA))]).1,
         (allTeamsGo uThree cfgThree 0 [] [("epl:ars", (0, payloadA))]).2) := by
  constructor
  · exact C5_teams_best_effort.1 uThree cfgThree 0 [("epl:ars", (0, payloadA))]
      [("epl:ars", (0, payloadA))] "ghost" infoGhost [("chelsea", infoChe)] rfl
  · exact C5_teams_best_effort.2.1 uThree cfgThree 0 [] [("epl:ars", (0, payloadA))]
      "arsenal" infoArsEpl [] _ rfl

/-! ## C4: 404 vs 500 taxonomy -/

/-- The cache cannot satisfy a request for `key` at time `now`: no entry, or
the entry's age is at least `CACHE_EXPIRATION`. -/
def staleOrMissing (now : Int) (cache : Cache) (key : String) : Bool :=
  match cacheLookup cache key with
  | some (ts, _) => decide (CACHE_EXPIRATION ≤ now - ts)
  | none => true

/-- The upstream request for `url` fails. -/
def upstreamErr (u : Upstream) (url : String) : Bool :=
  match u url with
  | .ok _ => false
  | .error _ => true

/-- Resolution of `(team_slug, league_slug)` against the static config fails
in `api_team`/`api_fixtures`: no matching team, provider id absent or zero,
or sport path unresolvable. -/
def teamConfigFails (cfg : Config) (t l : String) : Bool :=
  match findTeam cfg t l with
  | none => true
  | some (_, info) =>
      !intTruthy info.espn_id || !strTruthy (find_sport_slug cfg (some l))

/-- Resolution succeeds but the cache cannot serve the key and the upstream
fetch for the resolved team fails. -/
def teamUpstreamFails (u : Upstream) (cfg : Config) (now : Int) (cache : Cache)
    (t l : String) : Bool :=
  !teamConfigFails cfg t l &&
  staleOrMissing now cache (cacheKey (some l) (some t)) &&
  (match findTeam cfg t l with
   | none => false
   | some (_, info) =>
       upstreamErr u (espnUrl (find_sport_slug cfg (some l)) (some l) info.espn_id))

/-- Resolution of a bare `team_slug` against the static config fails in
`api_team_no_league`. -/
def slugConfigFails (cfg : Config) (t : String) : Bool :=
  match findTeamBySlug cfg t with
  | none => true
  | some (_, info) =>
      !(intTruthy info.espn_id && strTruthy info.league)
        || !strTruthy (find_sport_slug cfg info.league)

/-- Bare-slug resolution succeeds but the cache cannot serve the key and the
upstream fetch fails. -/
def slugUpstreamFails (u : Upstream) (cfg : Config) (now : Int) (cache : Cache)
    (t : String) : Bool :=
  !slugConfigFails cfg t &&
  (match findTeamBySlug cfg t with
   | none => false
   | some (_, info) =>
       staleOrMissing now cache (cacheKey info.league (some t)) &&
       upstreamErr u (espnUrl (find_sport_slug cfg info.league) info.league info.espn_id))

/-- When the cache cannot serve the key, `get_cached_team_data` takes the
fetch-and-store path. -/
theorem gctd_stale_path (u : Upstream) (now : Int) (cache : Cache)
    (s l t : Option String) (id : Option Int)
    (hsm : staleOrMissing now cache (cacheKey l t) = true) :
    get_cached_team_data u now cache s l t id
      = fetchAndStore u now cache (cacheKey l t) s l id := by
  unfold get_cached_team_data
  cases hl : cacheLookup cache (cacheKey l t) with
  | none => rfl
  | some p =>
      obtain ⟨ts, data⟩ := p
      unfold staleOrMissing at hsm
      rw [hl] at hsm
      dsimp only at hsm
      dsimp only
      rw [if_neg (not_lt.mpr (of_decide_eq_true hsm))]

/-- When `staleOrMissing` is false there is a fresh entry. -/
theorem staleOrMissing_false_fresh (now : Int) (cache : Cache) (key : String)
    (hsm : staleOrMissing now cache key = false) :
    ∃ ts data, cacheLookup cache key = some (ts, data) ∧ now - ts < CACHE_EXPIRATION := by
  unfold staleOrMissing at hsm
  cases hl : cacheLookup cache key with
  | none => rw [hl] at hsm; cases hsm
  | some p =>
      obtain ⟨ts, data⟩ := p
      rw [hl] at hsm
      dsimp only at hsm
      exact ⟨ts, data, rfl, not_le.mp (of_decide_eq_false hsm)⟩

/-- `fetchAndStore` on a successful upstream response. -/
theorem fetchAndStore_ok (u : Upstream) (now : Int) (cache : Cache) (key : String)
    (s l : Option String) (id : Option Int) (j : Json)
    (hu : u (espnUrl s l id) = Except.ok j) :
    fetchAndStore u now cache key s l id
      = (Except.ok j, cacheUpdate cache key (now, j), 1) := by
  unfold fetchAndStore fetch_team_data
  rw [hu]

/-- `fetchAndStore` on a failing upstream response. -/
theorem fetchAndStore_err (u : Upstream) (now : Int) (cache : Cache) (key : String)
    (s l : Option String) (id : Option Int) (e : String)
    (hu : u (espnUrl s l id) = Except.error e) :
    fetchAndStore u now cache key s l id
      = (Except.error (PyError.http 500 ("Error fetching ESPN data: " ++ e)), cache, 1) := by
  unfold fetchAndStore fetch_team_data
  rw [hu]

/-- Exhaustive behavior of `api_team`: a 404 config error with unchanged
cache, a 500 upstream error, or a successful payload. -/
theorem api_team_trichotomy (u : Upstream) (cfg : Config) (now : Int) (cache : Cache)
    (t l : String) :
    (teamConfigFails cfg t l = true ∧
      ∃ d, api_team u cfg now cache t l = (Except.error (PyError.http 404 d), cache)) ∨
    (teamConfigFails cfg t l = false ∧ teamUpstreamFails u cfg now cache t l = true ∧
      ∃ d, (api_team u cfg now cache t l).1 = Except.error (PyError.http 500 d)) ∨
    (teamConfigFails cfg t l = false ∧ teamUpstreamFails u cfg now cache t l = false ∧
      ∃ data, (api_team u cfg now cache t l).1 = Except.ok data) := by
  cases hft : findTeam cfg t l with
  | none =>
      left
      refine ⟨by unfold teamConfigFails; rw [hft], "Team or league not found in config", ?_⟩
      unfold api_team
      rw [hft]
  | some p =>
      obtain ⟨k, info⟩ := p
      cases hid : intTruthy info.espn_id with
      | false =>
          left
          refine ⟨by unfold teamConfigFails; rw [hft]; simp [hid],
            "Team ESPN ID not found in config", ?_⟩
          unfold api_team
          rw [hft]
          simp [hid]
      | true =>
          cases hsp : strTruthy (find_sport_slug cfg (some l)) with
          | false =>
              left
              refine ⟨by unfold teamConfigFails; rw [hft]; simp [hid, hsp],
                "Sport slug not found in config", ?_⟩
              unfold api_team
              rw [hft]
              simp [hid, hsp]
          | true =>
              have hcf : teamConfigFails cfg t l = false := by
                unfold teamConfigFails
                rw [hft]
                simp [hid, hsp]
              cases hsm : staleOrMissing now cache (cacheKey (some l) (some t)) with
              | false =>
                  right; right
                  obtain ⟨ts, data, hl, hf⟩ := staleOrMissing_false_fresh now cache _ hsm
                  refine ⟨hcf, ?_, data, ?_⟩
                  · unfold teamUpstreamFails
                    simp [hsm]
                  · unfold api_team
                    rw [hft]
                    simp only [hid, hsp, Bool.not_true, Bool.false_eq_true, if_false]
                    rw [gctd_fresh_hit u now cache (find_sport_slug cfg (some l)) (some l)
                      (some t) info.espn_id ts data hl hf]
              | true =>
                  cases hu : u (espnUrl (find_sport_slug cfg (some l)) (some l) info.espn_id) with
                  | ok j =>
                      right; right
                      refine ⟨hcf, ?_, j, ?_⟩
                      · unfold teamUpstreamFails upstreamErr
                        rw [hft]
                        simp [hu]
                      · unfold api_team
                        rw [hft]
                        simp only [hid, hsp, Bool.not_true, Bool.false_eq_true, if_false]
                        rw [gctd_stale_path u now cache (find_sport_slug cfg (some l)) (some l)
                          (some t) info.espn_id hsm,
                          fetchAndStore_ok u now cache _ (find_sport_slug cfg (some l)) (some l)
                          info.espn_id j hu]
                  | error e =>
                      right; left
                      refine ⟨hcf, ?_, "Error fetching ESPN data: " ++ e, ?_⟩
                      · unfold teamUpstreamFails upstreamErr
                        rw [hft]
                        simp [hcf, hsm, hu]
                      · unfold api_team
                        rw [hft]
                        simp only [hid, hsp, Bool.not_true, Bool.false_eq_true, if_false]
                        rw [gctd_stale_path u now cache (find_sport_slug cfg (some l)) (some l)
                          (some t) info.espn_id hsm,
                          fetchAndStore_err u now cache _ (find_sport_slug cfg (some l)) (some l)
                          info.espn_id e hu]

/-- Exhaustive behavior of `api_team_no_league`: a 404 config error with
unchanged cache, a 500 upstream error, or a successful payload. -/
theorem api_team_no_league_trichotomy (u : Upstream) (cfg : Config) (now : Int)
    (cache : Cache) (t : String) :
    (slugConfigFails cfg t = true ∧
      ∃ d, api_team_no_league u cfg now cache t = (Except.error (PyError.http 404 d), cache)) ∨
    (slugConfigFails cfg t = false ∧ slugUpstreamFails u cfg now cache t = true ∧
      ∃ d, (api_team_no_league u cfg now cache t).1 = Except.error (PyError.http 500 d)) ∨
    (slugConfigFails cfg t = false ∧ slugUpstreamFails u cfg now cache t = false ∧
      ∃ data, (api_team_no_league u cfg now cache t).1 = Except.ok data) := by
  cases hft : findTeamBySlug cfg t with
  | none =>
      left
      refine ⟨by unfold slugConfigFails; rw [hft], "Team not found in config", ?_⟩
      unfold api_team_no_league
      rw [hft]
  | some p =>
      obtain ⟨k, info⟩ := p
      cases hb : (intTruthy info.espn_id && strTruthy info.league) with
      | false =>
          left
          refine ⟨by unfold slugConfigFails; rw [hft]; simp [hb],
            "Team ESPN ID or league not found in config", ?_⟩
          unfold api_team_no_league
          rw [hft]
          simp [hb]
      | true =>
          cases hsp : strTruthy (find_sport_slug cfg info.league) with
          | false =>
              left
              refine ⟨by unfold slugConfigFails; rw [hft]; simp [hb, hsp],
                "Sport slug not found in config", ?_⟩
              unfold api_team_no_league
              rw [hft]
              simp [hb, hsp]
          | true =>
              have hcf : slugConfigFails cfg t = false := by
                unfold slugConfigFails
                rw [hft]
                simp [hb, hsp]
              cases hsm : staleOrMissing now cache (cacheKey info.league (some t)) with
              | false =>
                  right; right
                  obtain ⟨ts, data, hl, hf⟩ := staleOrMissing_false_fresh now cache _ hsm
                  refine ⟨hcf, ?_, data, ?_⟩
                  · unfold slugUpstreamFails
                    rw [hft]
                    simp [hsm]
                  · unfold api_team_no_league
                    rw [hft]
                    simp only [hb, hsp, Bool.not_true, Bool.false_eq_true, if_false]
                    rw [gctd_fresh_hit u now cache (find_sport_slug cfg info.league) info.league
                      (some t) info.espn_id ts data hl hf]
              | true =>
                  cases hu : u (espnUrl (find_sport_slug cfg info.league) info.league
                      info.espn_id) with
                  | ok j =>
                      right; right
                      refine ⟨hcf, ?_, j, ?_⟩
                      · unfold slugUpstreamFails upstreamErr
                        rw [hft]
                        simp [hu]
                      · unfold api_team_no_league
                        rw [hft]
                        simp only [hb, hsp, Bool.not_true, Bool.false_eq_true, if_false]
                        rw [gctd_stale_path u now cache (find_sport_slug cfg info.league)
                          info.league (some t) info.espn_id hsm,
                          fetchAndStore_ok u now cache _ (find_sport_slug cfg info.league)
                          info.league info.espn_id j hu]
                  | error e =>
                      right; left
                      refine ⟨hcf, ?_, "Error fetching ESPN data: " ++ e, ?_⟩
                      · unfold slugUpstreamFails upstreamErr
                        rw [hft]
                        simp [hcf, hsm, hu]
                      · unfold api_team_no_league
                        rw [hft]
                        simp only [hb, hsp, Bool.not_true, Bool.false_eq_true, if_false]
                        rw [gctd_stale_path u now cache (find_sport_slug cfg info.league)
                          info.league (some t) info.espn_id hsm,
                          fetchAndStore_err u now cache _ (find_sport_slug cfg info.league)
                          info.league info.espn_id e hu]

/-- Exhaustive behavior of `api_fixtures`: a 404 config error with unchanged
cache, a 500 upstream error, or a resolution success — in which case the
result is either a payload or an uncaught `AttributeError` from the
projection (never an HTTP-status error). -/
theorem api_fixtures_trichotomy (u : Upstream) (cfg : Config) (now : Int) (cache : Cache)
    (t l : String) :
    (teamConfigFails cfg t l = true ∧
      ∃ d, api_fixtures u cfg now cache t l = (Except.error (PyError.http 404 d), cache)) ∨
    (teamConfigFails cfg t l = false ∧ teamUpstreamFails u cfg now cache t l = true ∧
      ∃ d, (api_fixtures u cfg now cache t l).1 = Except.error (PyError.http 500 d)) ∨
    (teamConfigFails cfg t l = false ∧ teamUpstreamFails u cfg now cache t l = false ∧
      ((∃ data, (api_fixtures u cfg now cache t l).1 = Except.ok data) ∨
        (api_fixtures u cfg now cache t l).1 = Except.error PyError.attributeError)) := by
  cases hft : findTeam cfg t l with
  | none =>
      left
      refine ⟨by unfold teamConfigFails; rw [hft], "Team or league not found in config", ?_⟩
      unfold api_fixtures
      rw [hft]
  | some p =>
      obtain ⟨k, info⟩ := p
      cases hid : intTruthy info.espn_id with
      | false =>
          left
          refine ⟨by unfold teamConfigFails; rw [hft]; simp [hid],
            "Team ESPN ID not found in config", ?_⟩
          unfold api_fixtures
          rw [hft]
          simp [hid]
      | true =>
          cases hsp : strTruthy (find_sport_slug cfg (some l)) with
          | false =>
              left
              refine ⟨by unfold teamConfigFails; rw [hft]; simp [hid, hsp],
                "Sport slug not found in config", ?_⟩
              unfold api_fixtures
              rw [hft]
              simp [hid, hsp]
          | true =>
              have hcf : teamConfigFails cfg t l = false := by
                unfold teamConfigFails
                rw [hft]
                simp [hid, hsp]
              cases hsm : staleOrMissing now cache (cacheKey (some l) (some t)) with
              | false =>
                  right; right
                  obtain ⟨ts, data, hl, hf⟩ := staleOrMissing_false_fresh now cache _ hsm
                  have hgoal : api_fixtures u cfg now cache t l
                      = (match jsonGetD data "team" (Json.obj []) with
                         | .error _ => (Except.error PyError.attributeError, cache)
                         | .ok tv =>
                             match jsonGetD tv "nextEvent" (Json.arr []) with
                             | .error _ => (Except.error PyError.attributeError, cache)
                             | .ok fx => (Except.ok (Json.obj [("fixtures", fx)]), cache)) := by
                    unfold api_fixtures
                    rw [hft]
                    simp only [hid, hsp, Bool.not_true, Bool.false_eq_true, if_false]
                    rw [gctd_fresh_hit u now cache (find_sport_slug cfg (some l)) (some l)
                      (some t) info.espn_id ts data hl hf]
                  refine ⟨hcf, by unfold teamUpstreamFails; simp [hsm], ?_⟩
                  cases h1 : jsonGetD data "team" (Json.obj []) with
                  | error e1 => right; rw [hgoal, h1]
                  | ok tv =>
                      cases h2 : jsonGetD tv "nextEvent" (Json.arr []) with
                      | error e2 =>
                          right
                          rw [hgoal, h1]
                          dsimp only
                          rw [h2]
                      | ok fx =>
                          exact Or.inl ⟨_, by rw [hgoal, h1]; dsimp only; rw [h2]⟩
              | true =>
                  cases hu : u (espnUrl (find_sport_slug cfg (some l)) (some l) info.espn_id) with
                  | ok j =>
                      right; right
                      have hgoal : api_fixtures u cfg now cache t l
                          = (match jsonGetD j "team" (Json.obj []) with
                             | .error _ => (Except.error PyError.attributeError,
                                 cacheUpdate cache (cacheKey (some l) (some t)) (now, j))
                             | .ok tv =>
                                 match jsonGetD tv "nextEvent" (Json.arr []) with
                                 | .error _ => (Except.error PyError.attributeError,
                                     cacheUpdate cache (cacheKey (some l) (some t)) (now, j))
                                 | .ok fx => (Except.ok (Json.obj [("fixtures", fx)]),
                                     cacheUpdate cache (cacheKey (some l) (some t)) (now, j))) := by
                        unfold api_fixtures
                        rw [hft]
                        simp only [hid, hsp, Bool.not_true, Bool.false_eq_true, if_false]
                        rw [gctd_stale_path u now cache (find_sport_slug cfg (some l)) (some l)
                          (some t) info.espn_id hsm,
                          fetchAndStore_ok u now cache _ (find_sport_slug cfg (some l)) (some l)
                          info.espn_id j hu]
                      refine ⟨hcf, ?_, ?_⟩
                      · unfold teamUpstreamFails upstreamErr
                        rw [hft]
                        simp [hu]
                      · cases h1 : jsonGetD j "team" (Json.obj []) with
                        | error e1 => right; rw [hgoal, h1]
                        | ok tv =>
                            cases h2 : jsonGetD tv "nextEvent" (Json.arr []) with
                            | error e2 =>
                                right
                                rw [hgoal, h1]
                                dsimp only
                                rw [h2]
                            | ok fx =>
                                exact Or.inl ⟨_, by rw [hgoal, h1]; dsimp only; rw [h2]⟩
                  | error e =>
                      right; left
                      refine ⟨hcf, ?_, "Error fetching ESPN data: " ++ e, ?_⟩
                      · unfold teamUpstreamFails upstreamErr
                        rw [hft]
                        simp [hcf, hsm, hu]
                      · unfold api_fixtures
                        rw [hft]
                        simp only [hid, hsp, Bool.not_true, Bool.false_eq_true, if_false]
                        rw [gctd_stale_path u now cache (find_sport_slug cfg (some l)) (some l)
                          (some t) info.espn_id hsm,
                          fetchAndStore_err u now cache _ (find_sport_slug cfg (some l)) (some l)
                          info.espn_id e hu]

/-- A config failure precludes an upstream failure for the same request. -/
theorem teamUpstreamFails_of_configFails (u : Upstream) (cfg : Config) (now : Int)
    (cache : Cache) (t l : String) (h : teamConfigFails cfg t l = true) :
    teamUpstreamFails u cfg now cache t l = false := by
  unfold teamUpstreamFails
  simp [h]

/-- A bare-slug config failure precludes an upstream failure. -/
theorem slugUpstreamFails_of_configFails (u : Upstream) (cfg : Config) (now : Int)
    (cache : Cache) (t : String) (h : slugConfigFails cfg t = true) :
    slugUpstreamFails u cfg now cache t = false := by
  unfold slugUpstreamFails
  simp [h]

/-- From an exhaustive trichotomy of an endpoint result, derive the 404/500
status taxonomy: config failures surface as 404, upstream failures as 500,
and an HTTP-status error is 404 exactly on config failure and 500 exactly on
upstream failure. -/
theorem taxonomy_of_trichotomy (res : Except PyError Json × Cache) (cache : Cache)
    (cfgB ufB : Bool) (hufcf : cfgB = true → ufB = false)
    (tri : (cfgB = true ∧ ∃ d, res = (Except.error (PyError.http 404 d), cache)) ∨
      (cfgB = false ∧ ufB = true ∧ ∃ d, res.1 = Except.error (PyError.http 500 d)) ∨
      (cfgB = false ∧ ufB = false ∧
        ((∃ data, res.1 = Except.ok data) ∨ res.1 = Except.error PyError.attributeError))) :
    (cfgB = true → ∃ d, res = (Except.error (PyError.http 404 d), cache)) ∧
    (ufB = true → ∃ d, res.1 = Except.error (PyError.http 500 d)) ∧
    (∀ st d, res.1 = Except.error (PyError.http st d) →
      ((st = 404) ↔ cfgB = true) ∧ ((st = 500) ↔ ufB = true)) := by
  refine ⟨?_, ?_, ?_⟩
  · intro hcf
    rcases tri with ⟨_, hex⟩ | ⟨hcf', _⟩ | ⟨hcf', _⟩
    · exact hex
    · rw [hcf] at hcf'; cases hcf'
    · rw [hcf] at hcf'; cases hcf'
  · intro huf
    rcases tri with ⟨hcf, _⟩ | ⟨_, _, hex⟩ | ⟨_, huf', _⟩
    · rw [hufcf hcf] at huf; cases huf
    · exact hex
    · rw [huf] at huf'; cases huf'
  · intro st d h
    rcases tri with ⟨hcf, d', hd⟩ | ⟨hcf, huf, d', hd⟩ | ⟨hcf, huf, hok⟩
    · have h1 : (Except.error (PyError.http st d) : Except PyError Json)
          = Except.error (PyError.http 404 d') := by
        rw [← h, hd]
      simp only [Except.error.injEq, PyError.http.injEq] at h1
      obtain ⟨hst, -⟩ := h1
      subst hst
      refine ⟨by simp [hcf], ?_⟩
      rw [hufcf hcf]
      decide
    · have h1 : (Except.error (PyError.http st d) : Except PyError Json)
          = Except.error (PyError.http 500 d') := by
        rw [← h, hd]
      simp only [Except.error.injEq, PyError.http.injEq] at h1
      obtain ⟨hst, -⟩ := h1
      subst hst
      refine ⟨?_, by simp [huf]⟩
      rw [hcf]
      decide
    · rcases hok with ⟨data, hd⟩ | hd
      · rw [hd] at h; cases h
      · rw [hd] at h
        injection h with h2
        exact PyError.noConfusion h2

/-- C4: for the single-team endpoints and the fixtures endpoint, every
`HTTPException` carries status 404 exactly when resolution against the static
config fails (no matching team, provider id absent or zero, or sport path
unresolvable) and status 500 exactly when the upstream fetch fails; a
configuration failure always surfaces as a 404 and never as a 500, and an
upstream failure always surfaces as a 500 and never as a 404. -/
theorem C4_error_status_taxonomy (u : Upstream) (cfg : Config) (now : Int) (cache : Cache)
    (t l : String) :
    ((teamConfigFails cfg t l = true →
        ∃ d, api_team u cfg now cache t l = (Except.error (PyError.http 404 d), cache)) ∧
     (teamUpstreamFails u cfg now cache t l = true →
        ∃ d, (api_team u cfg now cache t l).1 = Except.error (PyError.http 500 d)) ∧
     (∀ st d, (api_team u cfg now cache t l).1 = Except.error (PyError.http st d) →
        ((st = 404) ↔ teamConfigFails cfg t l = true) ∧
        ((st = 500) ↔ teamUpstreamFails u cfg now cache t l = true))) ∧
    ((slugConfigFails cfg t = true →
        ∃ d, api_team_no_league u cfg now cache t = (Except.error (PyError.http 404 d), cache)) ∧
     (slugUpstreamFails u cfg now cache t = true →
        ∃ d, (api_team_no_league u cfg now cache t).1 = Except.error (PyError.http 500 d)) ∧
     (∀ st d, (api_team_no_league u cfg now cache t).1 = Except.error (PyError.http st d) →
        ((st = 404) ↔ slugConfigFails cfg t = true) ∧
        ((st = 500) ↔ slugUpstreamFails u cfg now cache t = true))) ∧
    ((teamConfigFails cfg t l = true →
        ∃ d, api_fixtures u cfg now cache t l = (Except.error (PyError.http 404 d), cache)) ∧
     (teamUpstreamFails u cfg now cache t l = true →
        ∃ d, (api_fixtures u cfg now cache t l).1 = Except.error (PyError.http 500 d)) ∧
     (∀ st d, (api_fixtures u cfg now cache t l).1 = Except.error (PyError.http st d) →
        ((st = 404) ↔ teamConfigFails cfg t l = true) ∧
        ((st = 500) ↔ teamUpstreamFails u cfg now cache t l = true))) := by
  refine ⟨?_, ?_, ?_⟩
  · refine taxonomy_of_trichotomy (api_team u cfg now cache t l) cache _ _
      (teamUpstreamFails_of_configFails u cfg now cache t l) ?_
    rcases api_team_trichotomy u cfg now cache t l with h | h | ⟨a, b, c⟩
    · exact Or.inl h
    · exact Or.inr (Or.inl h)
    · exact Or.inr (Or.inr ⟨a, b, Or.inl c⟩)
  · refine taxonomy_of_trichotomy (api_team_no_league u cfg now cache t) cache _ _
      (slugUpstreamFails_of_configFails u cfg now cache t) ?_
    rcases api_team_no_league_trichotomy u cfg now cache t with h | h | ⟨a, b, c⟩
    · exact Or.inl h
    · exact Or.inr (Or.inl h)
    · exact Or.inr (Or.inr ⟨a, b, Or.inl c⟩)
  · exact taxonomy_of_trichotomy (api_fixtures u cfg now cache t l) cache _ _
      (teamUpstreamFails_of_configFails u cfg now cache t l)
      (api_fixtures_trichotomy u cfg now cache t l)

/-- Witness for C4 at concrete inputs: an unknown slug gives a 404 on both
team endpoints; a stale entry with a failing upstream gives a 500 on the team
and fixtures endpoints; and the taxonomy instantiated at a concrete 404. -/
theorem C4_error_status_taxonomy_witness :
    (∃ d, api_team uOkA cfgA 0 [] "zzz" "epl" = (Except.error (PyError.http 404 d), [])) ∧
    (∃ d, (api_team uFail cfgA 3700 [("epl:ars", (100, payloadB))] "ars" "epl").1
        = Except.error (PyError.http 500 d)) ∧
    (∃ d, api_team_no_league uOkA cfgA 0 [] "zzz"
        = (Except.error (PyError.http 404 d), [])) ∧
    (∃ d, (api_fixtures uFail cfgA 3700 [] "ars" "epl").1
        = Except.error (PyError.http 500 d)) ∧
    (((404 : Nat) = 404) ↔ teamConfigFails cfgA "zzz" "epl" = true) := by
  refine ⟨?_, ?_, ?_, ?_, ?_⟩
  · exact (C4_error_status_taxonomy uOkA cfgA 0 [] "zzz" "epl").1.1 (by decide)
  · exact (C4_error_status_taxonomy uFail cfgA 3700 [("epl:ars", (100, payloadB))]
      "ars" "epl").1.2.1 (by decide)
  · exact (C4_error_status_taxonomy uOkA cfgA 0 [] "zzz" "epl").2.1.1 (by decide)
  · exact (C4_error_status_taxonomy uFail cfgA 3700 [] "ars" "epl").2.2.2.1 (by decide)
  · exact ((C4_error_status_taxonomy uOkA cfgA 0 [] "zzz" "epl").1.2.2 404
      "Team or league not found in config" rfl).1
